import Mathlib

/-!
Shallow embedding of the crypto command layer of gomuks
(`ui/crypto-commands.go`): device trust commands, session key import
and export, SSSS (server-side secret storage) commands and
cross-signing commands.

External collaborators (crypto store, home-server client, password
prompts) are modelled as explicit inputs carrying the result each call
site observes; each command is a pure function from those results to the
ordered list of observable effects (replies, store writes,
notifications, file writes, key generation/publish calls).
-/

set_option autoImplicit false

/-- Trust state of a device (`crypto.TrustState`). -/
inductive TrustState where
  | unset
  | verified
  | blacklisted
  | crossSignedVerified
  deriving DecidableEq, Repr

/-- The fields of `crypto.DeviceIdentity` used by these commands. -/
structure DeviceIdentity where
  userID : String
  deviceID : String
  name : String
  identityKey : String
  signingKey : String
  trust : TrustState
  deleted : Bool
  deriving DecidableEq, Repr

/-- Observable effects a command performs, in order. -/
inductive Effect where
  | reply (msg : String)
  | storePut (userID : String) (dev : DeviceIdentity)
  | onDevicesChanged (userID : String)
  | showVerificationModal
  | writeFile (path : String) (perm : Nat)
  | queryOwnKeys
  | generateKeys
  | publishKeys
  | setCachedKeys
  deriving DecidableEq, Repr

/-! ## SSSS status (`cmdS4Status`, lines 343-366) -/

/-- Passphrase parameters inside `ssss.KeyMetadata`. -/
structure PassphraseMeta where
  algorithm : String
  bits : Nat
  iterations : Nat
  deriving DecidableEq, Repr

/-- The fields of `ssss.KeyMetadata` used here; `passphrase = none`
models a nil `Passphrase` pointer. -/
structure KeyMetadata where
  algorithm : String
  passphrase : Option PassphraseMeta
  deriving DecidableEq, Repr

def algorithmAESHMACSHA2 : String := "m.secret_storage.v1.aes-hmac-sha2"

def passphraseAlgorithmPBKDF2 : String := "m.pbkdf2"

/-- Result of the key-data lookup at the top of `cmdS4Status`:
either the `ssss.ErrNoDefaultKeyAccountDataEvent` condition (in which
case the returned `keyData` pointer is nil), another error, or key data. -/
inductive SSSSStatusLookup where
  | noDefaultKey
  | otherError (e : String)
  | success (keyID : String) (keyData : KeyMetadata)
  deriving DecidableEq, Repr

/-- Replies produced by a command together with whether it panicked
(a nil-pointer dereference in the Go source). -/
structure CmdOutcome where
  replies : List String
  crashed : Bool
  deriving DecidableEq, Repr

/-- Lines 357-365 of `cmdS4Status`: the code after the error check,
which reads `keyData.Passphrase` and `keyData.Algorithm`. `keyData` is a
pointer in Go; when it is nil this read panics, modelled as `none`. -/
def s4StatusRest (keyID : String) (keyData : Option KeyMetadata) : Option String :=
  match keyData with
  | none => none
  | some d =>
    let hasPassphrase :=
      match d.passphrase with
      | none => "no"
      | some p =>
        "yes (alg=" ++ p.algorithm ++ ",bits=" ++ toString p.bits ++
          ",iter=" ++ toString p.iterations ++ ")"
    let algorithm :=
      if d.algorithm = algorithmAESHMACSHA2 then d.algorithm
      else d.algorithm ++ " (not supported!)"
    some ("Default key is set.\n  Key ID: " ++ keyID ++ "\n  Has passphrase: " ++
      hasPassphrase ++ "\n  Algorithm: " ++ algorithm)

/-- `cmdS4Status` (lines 343-366). In the `ErrNoDefaultKeyAccountDataEvent`
branch the source replies and does NOT return, then falls through to
`s4StatusRest` with the nil `keyData`; only the generic error branch
returns early. -/
def cmdS4Status (lookup : SSSSStatusLookup) : CmdOutcome :=
  match lookup with
  | .otherError e => ⟨["Failed to get key data: " ++ e], false⟩
  | .noDefaultKey =>
    match s4StatusRest "" none with
    | none => ⟨["SSSS is not set up: no default key set"], true⟩
    | some r => ⟨["SSSS is not set up: no default key set", r], false⟩
  | .success keyID d =>
    match s4StatusRest keyID (some d) with
    | none => ⟨[], true⟩
    | some r => ⟨[r], false⟩

/-! ## Cross-signing status (`parseKeyResp` lines 458-472,
`cmdCrossSigningStatus` lines 474-500) -/

/-- A cross-signing key map of `mautrix.RespQueryKeys`, reduced to a map
from user id to the `FirstKey()` of that user's entry. -/
def lookupKey (m : List (String × String)) (u : String) : Option String :=
  (m.find? (fun p => p.1 == u)).map Prod.snd

/-- The three cross-signing sections of `mautrix.RespQueryKeys`, each
mapping a user id to the published key's `FirstKey()`. -/
structure RespQueryKeys where
  masterKeys : List (String × String)
  selfSigningKeys : List (String × String)
  userSigningKeys : List (String × String)
  deriving DecidableEq, Repr

/-- `parseKeyResp` (lines 458-472). Note the source's return order: the
two-key branch returns `(master, selfSigning, "", true)` while the
three-key branch returns `(master, userSigning, selfSigning, true)`. -/
def parseKeyResp (keys : RespQueryKeys) (userID : String) :
    String × String × String × Bool :=
  match lookupKey keys.masterKeys userID with
  | none => ("", "", "", false)
  | some masterKeys =>
    match lookupKey keys.selfSigningKeys userID with
    | none => ("", "", "", false)
    | some selfSigningKeys =>
      match lookupKey keys.userSigningKeys userID with
      | none => (masterKeys, selfSigningKeys, "", true)
      | some userSigningKeys => (masterKeys, userSigningKeys, selfSigningKeys, true)

/-- Result observed from `client.QueryKeys`. -/
inductive QueryResult where
  | failure (e : String)
  | success (keys : RespQueryKeys)
  deriving DecidableEq, Repr

/-- Public parts of the locally cached cross-signing key set
(`mach.CrossSigningKeys`, nil pointer modelled as `Option`). -/
structure CrossSigningKeyCache where
  masterKeyPub : String
  selfSigningKeyPub : String
  userSigningKeyPub : String
  deriving DecidableEq, Repr

/-- `cmdCrossSigningStatus` (lines 474-500). The caller destructures
`parseKeyResp` as `masterKey, selfSigningKey, userSigningKey, ok`. -/
def cmdCrossSigningStatus (cached : Option CrossSigningKeyCache)
    (query : QueryResult) (userID : String) : List String :=
  match cached with
  | some k =>
    ["Cross-signing is set up and private keys are cached",
     "Master key: " ++ k.masterKeyPub,
     "User signing key: " ++ k.userSigningKeyPub,
     "Self-signing key: " ++ k.selfSigningKeyPub]
  | none =>
    match query with
    | .failure e => ["Failed to query own keys: " ++ e]
    | .success keys =>
      let r := parseKeyResp keys userID
      let masterKey := r.1
      let selfSigningKey := r.2.1
      let userSigningKey := r.2.2.1
      let ok := r.2.2.2
      if ok then
        ["Cross-signing is set up, but private keys are not cached",
         "Master key: " ++ masterKey,
         "User signing key: " ++ userSigningKey,
         "Self-signing key: " ++ selfSigningKey]
      else ["Didn't find published cross-signing keys"]

/-- Directory answer publishing all three cross-signing keys. -/
def respQKAll : RespQueryKeys :=
  { masterKeys := [("@user:example.com", "MASTERKEY")]
  , selfSigningKeys := [("@user:example.com", "SELFSIGNKEY")]
  , userSigningKeys := [("@user:example.com", "USERSIGNKEY")] }

/-- Directory answer publishing only master and self-signing keys. -/
def respQKTwo : RespQueryKeys :=
  { masterKeys := [("@user:example.com", "MASTERKEY")]
  , selfSigningKeys := [("@user:example.com", "SELFSIGNKEY")]
  , userSigningKeys := [] }

/-- Directory answer missing the master key. -/
def respQKNoMaster : RespQueryKeys :=
  { masterKeys := []
  , selfSigningKeys := [("@user:example.com", "SELFSIGNKEY")]
  , userSigningKeys := [("@user:example.com", "USERSIGNKEY")] }

/-- Directory answer missing the self-signing key. -/
def respQKNoSelf : RespQueryKeys :=
  { masterKeys := [("@user:example.com", "MASTERKEY")]
  , selfSigningKeys := []
  , userSigningKeys := [("@user:example.com", "USERSIGNKEY")] }

/-- Claim C1: `ssss status` with no default key configured replies
"SSSS is not set up: no default key set" and terminates without
crashing. The code does reply that fixed message, but the branch lacks a
return: it falls through and dereferences the nil `keyData` pointer
(`keyData.Passphrase`, line 358), i.e. it crashes. -/
theorem cmdS4Status_noDefaultKey_crashes :
    cmdS4Status .noDefaultKey =
      { replies := ["SSSS is not set up: no default key set"], crashed := true } := rfl

/-- Claim C2: with no cached keys and all three cross-signing keys
published, `cross-signing status` swaps the self-signing and
user-signing labels: the line labelled "User signing key" carries the
published self-signing key and vice versa. The two-key shape and the
missing-key shapes behave as the claim says. -/
theorem crossSigningStatus_labels_swapped :
    cmdCrossSigningStatus none (.success respQKAll) "@user:example.com" =
      ["Cross-signing is set up, but private keys are not cached",
       "Master key: MASTERKEY",
       "User signing key: SELFSIGNKEY",
       "Self-signing key: USERSIGNKEY"] ∧
    cmdCrossSigningStatus none (.success respQKTwo) "@user:example.com" =
      ["Cross-signing is set up, but private keys are not cached",
       "Master key: MASTERKEY",
       "User signing key: ",
       "Self-signing key: SELFSIGNKEY"] ∧
    cmdCrossSigningStatus none (.success respQKNoMaster) "@user:example.com" =
      ["Didn't find published cross-signing keys"] ∧
    cmdCrossSigningStatus none (.success respQKNoSelf) "@user:example.com" =
      ["Didn't find published cross-signing keys"] :=
  ⟨rfl, rfl, rfl, rfl⟩

/-! ## Device trust commands (`getDevice` lines 95-107, `putDevice`
lines 109-118, `cmdVerify` lines 162-194, `cmdUnverify` lines 196-211,
`cmdBlacklist` lines 213-228) -/

/-- Result observed from `mach.GetOrFetchDevice`. -/
inductive FetchResult where
  | found (d : DeviceIdentity)
  | fetchError (e : String)
  deriving DecidableEq, Repr

/-- Result observed from `mach.CryptoStore.PutDevice`. -/
inductive PutResult where
  | ok
  | fail (e : String)
  deriving DecidableEq, Repr

/-- Result observed from `mach.NewSimpleSASVerificationWith`. -/
inductive VerifyStartResult where
  | started
  | vError (e : String)
  deriving DecidableEq, Repr

/-- `getDevice` (lines 95-107): usage check, then device fetch; yields
the replies emitted so far and the device when one was obtained. -/
def getDevice (cmdName : String) (args : List String) (fetch : FetchResult) :
    List Effect × Option DeviceIdentity :=
  if args.length < 2 then
    ([.reply ("Usage: /" ++ cmdName ++ " <user id> <device id> [fingerprint]")], none)
  else
    match fetch with
    | .fetchError e => ([.reply ("Failed to get device: " ++ e)], none)
    | .found d => ([], some d)

/-- `putDevice` (lines 109-118): persist the device, reply according to
the result, then call `mach.OnDevicesChanged` — the notification is
outside the if/else and runs in both cases. -/
def putDevice (device : DeviceIdentity) (action : String) (putRes : PutResult) :
    List Effect :=
  Effect.storePut device.userID device ::
    (match putRes with
     | .fail e => [Effect.reply ("Failed to save device: " ++ e)]
     | .ok => [Effect.reply ("Successfully " ++ action ++ " " ++ device.userID ++ "/" ++
         device.deviceID ++ " (" ++ device.name ++ ")")]) ++
    [Effect.onDevicesChanged device.userID]

/-- `cmdVerify` (lines 162-194): already-verified guard, interactive SAS
branch when exactly two arguments, otherwise manual fingerprint
comparison of the concatenated remaining arguments against the device's
signing key. -/
def cmdVerify (args : List String) (fetch : FetchResult)
    (sas : VerifyStartResult) (putRes : PutResult) : List Effect :=
  match getDevice "verify" args fetch with
  | (pre, none) => pre
  | (pre, some device) =>
    if device.trust = .verified then
      pre ++ [.reply "That device is already verified"]
    else if args.length = 2 then
      pre ++ Effect.showVerificationModal ::
        (match sas with
         | .vError e => [.reply ("Failed to start interactive verification: " ++ e)]
         | .started => [])
    else
      let fingerprint := String.join (args.drop 2)
      if device.signingKey ≠ fingerprint then
        pre ++ [.reply "Mismatching fingerprint"]
      else
        let action :=
          if device.trust = .blacklisted then "unblacklisted and verified" else "verified"
        pre ++ putDevice { device with trust := .verified } action putRes

/-- `cmdUnverify` (lines 196-211). -/
def cmdUnverify (args : List String) (fetch : FetchResult) (putRes : PutResult) :
    List Effect :=
  match getDevice "unverify" args fetch with
  | (pre, none) => pre
  | (pre, some device) =>
    if device.trust = .unset then
      pre ++ [.reply "That device is already not verified"]
    else
      let action := if device.trust = .blacklisted then "unblacklisted" else "unverified"
      pre ++ putDevice { device with trust := .unset } action putRes

/-- `cmdBlacklist` (lines 213-228). -/
def cmdBlacklist (args : List String) (fetch : FetchResult) (putRes : PutResult) :
    List Effect :=
  match getDevice "blacklist" args fetch with
  | (pre, none) => pre
  | (pre, some device) =>
    if device.trust = .blacklisted then
      pre ++ [.reply "That device is already blacklisted"]
    else
      let action := if device.trust = .verified then "unverified and blacklisted" else "blacklisted"
      pre ++ putDevice { device with trust := .blacklisted } action putRes

/-- A sample device used for concrete evaluations. -/
def devSample (t : TrustState) : DeviceIdentity :=
  { userID := "@alice:example.com", deviceID := "ABCDEFG", name := "laptop"
  , identityKey := "idkey", signingKey := "SIGKEY123", trust := t, deleted := false }

/-- Helper: with both user id and device id present and a successful
fetch, `getDevice` emits no reply and yields the device. -/
theorem getDevice_found (c u dv : String) (rest : List String) (d : DeviceIdentity) :
    getDevice c (u :: dv :: rest) (.found d) = ([], some d) := by
  unfold getDevice
  rw [if_neg (by simp only [List.length_cons]; omega)]

/-- Helper: manual-verification characterization of `cmdVerify` when the
device is not yet verified and fingerprint arguments are present. -/
theorem cmdVerify_manual_eq (u dv : String) (rest : List String)
    (device : DeviceIdentity) (sas : VerifyStartResult) (putRes : PutResult)
    (hr : rest ≠ []) (ht : device.trust ≠ .verified) :
    cmdVerify (u :: dv :: rest) (.found device) sas putRes =
      if device.signingKey = String.join rest then
        putDevice { device with trust := .verified }
          (if device.trust = .blacklisted then "unblacklisted and verified" else "verified")
          putRes
      else [.reply "Mismatching fingerprint"] := by
  have hlen2 : (u :: dv :: rest).length ≠ 2 := by
    simp only [List.length_cons]
    intro h
    exact hr (List.eq_nil_of_length_eq_zero (by omega))
  have hdrop : (u :: dv :: rest).drop 2 = rest := rfl
  simp only [cmdVerify, getDevice_found, if_neg ht, if_neg hlen2, hdrop, List.nil_append]
  by_cases hfp : device.signingKey = String.join rest
  · rw [if_neg (by simp [hfp]), if_pos hfp]
  · rw [if_pos (by simp [hfp]), if_neg hfp]

/-- Claim C3 (counterexample): on a persist failure, `putDevice` reports
the failure but the devices-changed notification still fires — the call
to `mach.OnDevicesChanged` is outside the if/else. -/
theorem putDevice_notifies_despite_persist_failure :
    Effect.reply "Failed to save device: disk error" ∈
      putDevice (devSample .verified) "verified" (.fail "disk error") ∧
    Effect.onDevicesChanged "@alice:example.com" ∈
      putDevice (devSample .verified) "verified" (.fail "disk error") := by
  constructor <;> simp [putDevice, devSample]

/-- Claim C3 (amended): every trust mutation persists first and reports
the result, and the devices-changed notification fires unconditionally
as the last effect — after a successful persist, but also after a failed
one (where the failure is reported before the notification). -/
theorem putDevice_always_notifies (d : DeviceIdentity) (a e : String) :
    (putDevice d a (.fail e)).getLast? = some (.onDevicesChanged d.userID) ∧
    Effect.reply ("Failed to save device: " ++ e) ∈ putDevice d a (.fail e) ∧
    (putDevice d a .ok).getLast? = some (.onDevicesChanged d.userID) := by
  refine ⟨?_, ?_, ?_⟩ <;> simp [putDevice]

/-- Claim C4: for a device not already verified and a non-empty
fingerprint argument list, manual verify writes to the store iff the
concatenated fingerprint equals the device's signing key; a mismatch
replies "Mismatching fingerprint" and performs no store write; a match
persists the device with trust set to Verified under the action label
"verified", or "unblacklisted and verified" if it was blacklisted. -/
theorem cmdVerify_manual_fingerprint_exact (u dv : String) (rest : List String)
    (device : DeviceIdentity) (sas : VerifyStartResult) (putRes : PutResult)
    (hr : rest ≠ []) (ht : device.trust ≠ .verified) :
    ((∃ x d, Effect.storePut x d ∈ cmdVerify (u :: dv :: rest) (.found device) sas putRes) ↔
       String.join rest = device.signingKey) ∧
    (String.join rest ≠ device.signingKey →
       cmdVerify (u :: dv :: rest) (.found device) sas putRes =
         [.reply "Mismatching fingerprint"]) ∧
    (String.join rest = device.signingKey →
       cmdVerify (u :: dv :: rest) (.found device) sas putRes =
         putDevice { device with trust := .verified }
           (if device.trust = .blacklisted then "unblacklisted and verified" else "verified")
           putRes) := by
  rw [cmdVerify_manual_eq u dv rest device sas putRes hr ht]
  by_cases hfp : device.signingKey = String.join rest
  · rw [if_pos hfp]
    refine ⟨⟨fun _ => hfp.symm, ?_⟩, fun h => absurd hfp.symm h, fun _ => rfl⟩
    intro _
    exact ⟨device.userID, { device with trust := .verified }, by simp [putDevice]⟩
  · rw [if_neg hfp]
    refine ⟨⟨?_, fun h => absurd h.symm hfp⟩, fun _ => rfl, fun h => absurd h.symm hfp⟩
    rintro ⟨x, d, hmem⟩
    simp at hmem

/-- Claim C4 witness: concrete evaluation with a matching fingerprint. -/
theorem cmdVerify_manual_fingerprint_exact_w :
    ((∃ x d, Effect.storePut x d ∈
        cmdVerify ["@alice:example.com", "ABCDEFG", "SIGKEY123"]
          (.found (devSample .unset)) .started .ok) ↔
       String.join ["SIGKEY123"] = (devSample .unset).signingKey) ∧
    (String.join ["SIGKEY123"] ≠ (devSample .unset).signingKey →
       cmdVerify ["@alice:example.com", "ABCDEFG", "SIGKEY123"]
         (.found (devSample .unset)) .started .ok = [.reply "Mismatching fingerprint"]) ∧
    (String.join ["SIGKEY123"] = (devSample .unset).signingKey →
       cmdVerify ["@alice:example.com", "ABCDEFG", "SIGKEY123"]
         (.found (devSample .unset)) .started .ok =
         putDevice { devSample .unset with trust := .verified }
           (if (devSample .unset).trust = .blacklisted then "unblacklisted and verified"
            else "verified") .ok) :=
  cmdVerify_manual_fingerprint_exact "@alice:example.com" "ABCDEFG" ["SIGKEY123"]
    (devSample .unset) .started .ok (by decide) (by decide)

/-- Claim C5: verify on an already-verified device, unverify on an
already-unset device, and blacklist on an already-blacklisted device
each produce exactly one fixed already-in-that-state reply and no store
write. -/
theorem trust_cmds_idempotent_at_target (u dv : String) (device : DeviceIdentity)
    (sas : VerifyStartResult) (putRes : PutResult) :
    (device.trust = .verified →
       cmdVerify [u, dv] (.found device) sas putRes =
         [.reply "That device is already verified"]) ∧
    (device.trust = .unset →
       cmdUnverify [u, dv] (.found device) putRes =
         [.reply "That device is already not verified"]) ∧
    (device.trust = .blacklisted →
       cmdBlacklist [u, dv] (.found device) putRes =
         [.reply "That device is already blacklisted"]) := by
  refine ⟨fun h => ?_, fun h => ?_, fun h => ?_⟩
  · simp only [cmdVerify, getDevice_found, if_pos h, List.nil_append]
  · simp only [cmdUnverify, getDevice_found, if_pos h, List.nil_append]
  · simp only [cmdBlacklist, getDevice_found, if_pos h, List.nil_append]

/-- Claim C5 witness: concrete devices already in each target state. -/
theorem trust_cmds_idempotent_at_target_w :
    cmdVerify ["@alice:example.com", "ABCDEFG"] (.found (devSample .verified)) .started .ok =
      [.reply "That device is already verified"] ∧
    cmdUnverify ["@alice:example.com", "ABCDEFG"] (.found (devSample .unset)) .ok =
      [.reply "That device is already not verified"] ∧
    cmdBlacklist ["@alice:example.com", "ABCDEFG"] (.found (devSample .blacklisted)) .ok =
      [.reply "That device is already blacklisted"] :=
  ⟨(trust_cmds_idempotent_at_target "@alice:example.com" "ABCDEFG"
      (devSample .verified) .started .ok).1 rfl,
   (trust_cmds_idempotent_at_target "@alice:example.com" "ABCDEFG"
      (devSample .unset) .started .ok).2.1 rfl,
   (trust_cmds_idempotent_at_target "@alice:example.com" "ABCDEFG"
      (devSample .blacklisted) .started .ok).2.2 rfl⟩

/-! ## Key import/export (`cmdImportKeys` lines 239-262, `exportKeys`
lines 264-285) -/

/-- Result observed from `filepath.Abs`. -/
inductive AbsResult where
  | absOk (path : String)
  | absErr (e : String)
  deriving DecidableEq, Repr

/-- Result observed from a password/passphrase prompt
(`cmd.MainView.AskPassword`): the entered text, or dismissal. -/
inductive PromptResult where
  | entered (s : String)
  | cancelled
  deriving DecidableEq, Repr

/-- Result observed from `ioutil.ReadFile`. -/
inductive ReadResult where
  | readOk (data : String)
  | readErr (e : String)
  deriving DecidableEq, Repr

/-- Result observed from `mach.ImportKeys`. -/
inductive ImportResult where
  | importOk (imported total : Nat)
  | importErr (e : String)
  deriving DecidableEq, Repr

/-- Result observed from `crypto.ExportKeys`. -/
inductive ExportResult where
  | exportOk (data : String)
  | exportErr (e : String)
  deriving DecidableEq, Repr

/-- Result observed from `ioutil.WriteFile`. -/
inductive WriteResult where
  | writeOk
  | writeErr (e : String)
  deriving DecidableEq, Repr

/-- `cmdImportKeys` (lines 239-262). -/
def cmdImportKeys (abs : AbsResult) (rd : ReadResult) (prompt : PromptResult)
    (im : ImportResult) : List Effect :=
  match abs with
  | .absErr e => [.reply ("Failed to get absolute path: " ++ e)]
  | .absOk path =>
    match rd with
    | .readErr e => [.reply ("Failed to read " ++ path ++ ": " ++ e)]
    | .readOk _ =>
      match prompt with
      | .cancelled => [.reply "Passphrase entry cancelled"]
      | .entered _ =>
        match im with
        | .importErr e => [.reply ("Failed to import sessions: " ++ e)]
        | .importOk imported total =>
          [.reply ("Successfully imported " ++ toString imported ++ "/" ++
            toString total ++ " sessions")]

/-- `exportKeys` (lines 264-285). After the `crypto.ExportKeys` error
reply the source does NOT return: `ioutil.WriteFile` (mode 0400, i.e.
256) runs either way, followed by the write-result reply. -/
def exportKeys (abs : AbsResult) (prompt : PromptResult) (exportRes : ExportResult)
    (writeRes : WriteResult) (nSessions : Nat) : List Effect :=
  match abs with
  | .absErr e => [.reply ("Failed to get absolute path: " ++ e)]
  | .absOk path =>
    match prompt with
    | .cancelled => [.reply "Passphrase entry cancelled"]
    | .entered _ =>
      (match exportRes with
       | .exportErr e => [.reply ("Failed to export sessions: " ++ e)]
       | .exportOk _ => []) ++
      Effect.writeFile path 256 ::
        (match writeRes with
         | .writeErr e => [.reply ("Failed to write sessions to " ++ path ++ ": " ++ e)]
         | .writeOk =>
           [.reply ("Successfully exported " ++ toString nSessions ++ " sessions to " ++ path)])

/-! ## SSSS generate (`cmdS4Generate` lines 368-397) and the shared
unlock protocol (`getSSSS` lines 582-624) -/

/-- Result observed from `ssss.NewKey`. -/
inductive NewKeyResult where
  | newKeyOk (keyID recoveryKey : String)
  | newKeyErr (e : String)
  deriving DecidableEq, Repr

/-- Result observed from `SetKeyData` / `SetDefaultKeyID`. -/
inductive StoreOpResult where
  | opOk
  | opErr (e : String)
  deriving DecidableEq, Repr

/-- `cmdS4Generate` (lines 368-397). A dismissed passphrase prompt
returns with no reply at all. -/
def cmdS4Generate (origCommand : String) (prompt : PromptResult)
    (newKey : NewKeyResult) (setKeyData setDefaultRes : StoreOpResult)
    (setDefault : Bool) : List String :=
  match prompt with
  | .cancelled => []
  | .entered _ =>
    match newKey with
    | .newKeyErr e => ["Failed to generate new key: " ++ e]
    | .newKeyOk keyID recoveryKey =>
      match setKeyData with
      | .opErr e => ["Failed to upload key metadata: " ++ e]
      | .opOk =>
        ["Successfully generated key " ++ keyID ++ "\nRecovery key: " ++ recoveryKey] ++
          if setDefault then
            match setDefaultRes with
            | .opErr e => ["Failed to set key as default: " ++ e]
            | .opOk => []
          else
            ["You can use `/" ++ origCommand ++ " set-default " ++ keyID ++
              "` to set it as the default"]

/-- Result of `mach.SSSS.GetDefaultKeyData` as observed by `getSSSS`. -/
inductive DefaultKeyLookup where
  | mNotFound
  | lookupErr (e : String)
  | found (keyData : KeyMetadata)
  deriving DecidableEq, Repr

/-- Result observed from `VerifyPassphrase` / `VerifyRecoveryKey`:
the decoded key (opaque), or one of the distinguished ssss errors. -/
inductive VerifyKeyResult where
  | keyOk (key : String)
  | incorrectKey
  | invalidRecoveryKey
  | otherKeyErr (e : String)
  deriving DecidableEq, Repr

/-- `getSSSS` (lines 582-624): resolve the default key, then prompt for
a passphrase (when the metadata declares a PBKDF2 passphrase) or a
recovery key; a dismissed prompt returns nil with no reply. -/
def getSSSS (lookup : DefaultKeyLookup) (prompt : PromptResult)
    (verify : VerifyKeyResult) : List String × Option String :=
  match lookup with
  | .mNotFound => (["SSSS not set up, use `!ssss generate --set-default` first"], none)
  | .lookupErr e => (["Failed to fetch default SSSS key data: " ++ e], none)
  | .found keyData =>
    let usePassphrase : Bool :=
      match keyData.passphrase with
      | some p => p.algorithm == passphraseAlgorithmPBKDF2
      | none => false
    if usePassphrase then
      match prompt with
      | .cancelled => ([], none)
      | .entered _ =>
        match verify with
        | .incorrectKey => (["Incorrect passphrase"], none)
        | .keyOk k => ([], some k)
        | .invalidRecoveryKey => (["Failed to get SSSS key: invalid recovery key"], none)
        | .otherKeyErr e => (["Failed to get SSSS key: " ++ e], none)
    else
      match prompt with
      | .cancelled => ([], none)
      | .entered _ =>
        match verify with
        | .invalidRecoveryKey => (["Malformed recovery key"], none)
        | .incorrectKey => (["Incorrect recovery key"], none)
        | .keyOk k => ([], some k)
        | .otherKeyErr e => (["Failed to get SSSS key: " ++ e], none)

/-! ## Cross-signing generate and its interactive-auth callback
(`cmdCrossSigningGenerate` lines 519-580) -/

/-- A single UIA flow: its ordered stage names. -/
structure UIAFlow where
  stages : List String
  deriving DecidableEq, Repr

/-- The fields of `mautrix.RespUserInteractive` used here. -/
structure RespUserInteractive where
  flows : List UIAFlow
  session : String
  deriving DecidableEq, Repr

def authTypePassword : String := "m.login.password"

/-- `mautrix.RespUserInteractive.HasSingleStageFlow` (external library
helper called on line 542): true iff some offered flow consists of
exactly the one given stage. -/
def hasSingleStageFlow (uia : RespUserInteractive) (authType : String) : Bool :=
  uia.flows.any (fun f => f.stages == [authType])

/-- Credential produced by the auth callback: `mautrix.BaseAuthData` or
`mautrix.ReqUIAuthLogin`. -/
inductive AuthData where
  | base (authType session : String)
  | passwordLogin (authType session user password : String)
  deriving DecidableEq, Repr

/-- Result observed from `container.UIAFallback`. -/
inductive FallbackResult where
  | fallbackOk
  | fallbackErr (e : String)
  deriving DecidableEq, Repr

/-- The interactive-auth callback passed to `PublishCrossSigningKeys`
(lines 541-573). Every path of the Go `for` body returns, so only the
first flow is ever examined, and the "No supported authentication
mechanisms found" reply is reached only when the flow list is empty. -/
def crossSigningAuthCallback (uia : RespUserInteractive) (fallback : FallbackResult)
    (prompt : PromptResult) (userID : String) : List String × Option AuthData :=
  if hasSingleStageFlow uia authTypePassword then
    match prompt with
    | .cancelled => ([], none)
    | .entered password =>
      ([], some (.passwordLogin authTypePassword uia.session userID password))
  else
    match uia.flows with
    | [] => (["No supported authentication mechanisms found"], none)
    | flow :: _ =>
      match flow.stages with
      | [stage] =>
        match fallback with
        | .fallbackErr e =>
          (["Opening browser for authentication", "Authentication failed: " ++ e], none)
        | .fallbackOk =>
          (["Opening browser for authentication"], some (.base stage uia.session))
      | _ => ([], none)

/-- Result observed from `mach.GenerateCrossSigningKeys`. -/
inductive GenResult where
  | genOk
  | genErr (e : String)
  deriving DecidableEq, Repr

/-- Result observed from `mach.PublishCrossSigningKeys`. -/
inductive PublishResult where
  | pubOk
  | pubErr (e : String)
  deriving DecidableEq, Repr

/-- Lines 535-580 of `cmdCrossSigningGenerate`: the part after the
existing-keys probe — generate the key set, publish it, cache it. -/
def csGenProceed (gen : GenResult) (publish : PublishResult) : List Effect :=
  Effect.generateKeys ::
    match gen with
    | .genErr e => [.reply ("Failed to generate cross-signing keys: " ++ e)]
    | .genOk =>
      Effect.publishKeys ::
        match publish with
        | .pubErr e => [.reply ("Failed to publish cross-signing keys: " ++ e)]
        | .pubOk => [Effect.setCachedKeys]

/-- `cmdCrossSigningGenerate` (lines 519-580): without `--force`, probe
the directory for published keys; when the probe succeeds and
`parseKeyResp` reports keys, abort with the `--force` hint; when the
probe errors (`err != nil`) the check is skipped with no reply and the
workflow proceeds. -/
def cmdCrossSigningGenerate (force : Bool) (query : QueryResult) (userID : String)
    (gen : GenResult) (publish : PublishResult) : List Effect :=
  if force then csGenProceed gen publish
  else
    Effect.queryOwnKeys ::
      match query with
      | .failure _ => csGenProceed gen publish
      | .success keys =>
        if (parseKeyResp keys userID).2.2.2 then
          [.reply "Found existing cross-signing keys. Use `--force` if you want to overwrite them."]
        else csGenProceed gen publish

/-- Claim C6: when serializing/encrypting the sessions fails, the source
replies "Failed to export sessions" but lacks a return: the file write
(mode 0400 = 256) still happens and its result is also reported; on an
export success the file is written and the count and path reported. -/
theorem exportKeys_writes_despite_export_failure :
    exportKeys (.absOk "/home/user/keys.txt") (.entered "hunter2")
        (.exportErr "encrypt failed") .writeOk 5 =
      [.reply "Failed to export sessions: encrypt failed",
       .writeFile "/home/user/keys.txt" 256,
       .reply "Successfully exported 5 sessions to /home/user/keys.txt"] ∧
    Effect.writeFile "/home/user/keys.txt" 256 ∈
      exportKeys (.absOk "/home/user/keys.txt") (.entered "hunter2")
        (.exportErr "encrypt failed") .writeOk 5 ∧
    exportKeys (.absOk "/home/user/keys.txt") (.entered "hunter2")
        (.exportOk "ENCRYPTED") .writeOk 5 =
      [.writeFile "/home/user/keys.txt" 256,
       .reply "Successfully exported 5 sessions to /home/user/keys.txt"] := by
  refine ⟨rfl, ?_, rfl⟩
  simp [exportKeys]

/-- Challenge offering one flow of two stages, none singly satisfiable. -/
def uiaTwoStage : RespUserInteractive :=
  { flows := [{ stages := ["m.login.recaptcha", "m.login.email.identity"] }]
  , session := "sess1" }

/-- Challenge offering no flows at all. -/
def uiaNoFlows : RespUserInteractive := { flows := [], session := "sess0" }

/-- Challenge offering a single-stage password flow. -/
def uiaPasswordFlow : RespUserInteractive :=
  { flows := [{ stages := ["m.login.password"] }], session := "sess2" }

/-- Claim C7 (counterexample): a challenge with one two-stage flow has
no single-stage password flow and no single-stage flow at all, yet the
auth callback returns no credential with NO reply — the "No supported
authentication mechanisms found" message is not reported. -/
theorem authCallback_silent_on_multistage_flow :
    hasSingleStageFlow uiaTwoStage authTypePassword = false ∧
    (∀ f ∈ uiaTwoStage.flows, f.stages.length ≠ 1) ∧
    crossSigningAuthCallback uiaTwoStage .fallbackOk (.entered "pw") "@user:example.com" =
      ([], none) := by
  refine ⟨rfl, ?_, rfl⟩
  decide

/-- Claim C7 (amended): when no offered flow is a single password stage
and no flow has exactly one stage, the auth callback always yields no
credential (so publishing fails), but the "No supported authentication
mechanisms found" message is reported exactly when the flow list is
empty; with a non-empty flow list the callback returns silently. -/
theorem authCallback_no_supported_mechanisms (uia : RespUserInteractive)
    (fallback : FallbackResult) (prompt : PromptResult) (userID : String)
    (hp : hasSingleStageFlow uia authTypePassword = false)
    (hall : ∀ f ∈ uia.flows, f.stages.length ≠ 1) :
    (crossSigningAuthCallback uia fallback prompt userID).2 = none ∧
    ((crossSigningAuthCallback uia fallback prompt userID).1 =
        ["No supported authentication mechanisms found"] ↔ uia.flows = []) ∧
    (uia.flows ≠ [] → (crossSigningAuthCallback uia fallback prompt userID).1 = []) := by
  unfold crossSigningAuthCallback
  rw [if_neg (by simp [hp])]
  cases huia : uia.flows with
  | nil => simp
  | cons flow rest =>
    have h1 : flow.stages.length ≠ 1 :=
      hall flow (huia ▸ List.mem_cons_self flow rest)
    cases hst : flow.stages with
    | nil => simp [hst]
    | cons a t =>
      cases t with
      | nil => exact absurd (by rw [hst, List.length_singleton]) h1
      | cons b t2 => simp [hst]

/-- Claim C7 amended witness: empty flow list — no credential and the
message is reported. -/
theorem authCallback_no_supported_mechanisms_w :
    (crossSigningAuthCallback uiaNoFlows .fallbackOk (.entered "pw") "@user:example.com").2 =
      none ∧
    ((crossSigningAuthCallback uiaNoFlows .fallbackOk (.entered "pw") "@user:example.com").1 =
        ["No supported authentication mechanisms found"] ↔ uiaNoFlows.flows = []) ∧
    (uiaNoFlows.flows ≠ [] →
      (crossSigningAuthCallback uiaNoFlows .fallbackOk (.entered "pw") "@user:example.com").1 =
        []) :=
  authCallback_no_supported_mechanisms uiaNoFlows .fallbackOk (.entered "pw")
    "@user:example.com" rfl (by decide)

/-- Claim C8 (counterexample): dismissing the passphrase prompt of
`ssss generate` aborts with NO reply at all — no cancellation notice. -/
theorem s4Generate_cancel_is_silent :
    cmdS4Generate "ssss" .cancelled (.newKeyOk "key1" "rkey") .opOk .opOk false = [] := rfl

/-- Claim C8 (amended): a dismissed prompt always aborts the workflow
(nothing further runs and no credential/key is produced), but only the
key import and key export prompts reply "Passphrase entry cancelled";
SSSS generate, the SSSS unlock protocol, and the cross-signing
re-authentication prompt abort silently with no notice. -/
theorem prompt_cancel_behaviour (p rdData : String) (im : ImportResult)
    (ex : ExportResult) (wr : WriteResult) (n : Nat) (oc : String)
    (nk : NewKeyResult) (s1 s2 : StoreOpResult) (b : Bool) (kd : KeyMetadata)
    (v : VerifyKeyResult) (uia : RespUserInteractive) (fb : FallbackResult) (u : String)
    (hp : hasSingleStageFlow uia authTypePassword = true) :
    cmdImportKeys (.absOk p) (.readOk rdData) .cancelled im =
      [.reply "Passphrase entry cancelled"] ∧
    exportKeys (.absOk p) .cancelled ex wr n = [.reply "Passphrase entry cancelled"] ∧
    cmdS4Generate oc .cancelled nk s1 s2 b = [] ∧
    getSSSS (.found kd) .cancelled v = ([], none) ∧
    crossSigningAuthCallback uia fb .cancelled u = ([], none) := by
  refine ⟨rfl, rfl, rfl, ?_, ?_⟩
  · simp only [getSSSS]
    split <;> rfl
  · unfold crossSigningAuthCallback
    rw [if_pos (by simp [hp])]

/-- Claim C8 amended witness: concrete prompts dismissed in each of the
five workflows. -/
theorem prompt_cancel_behaviour_w :
    cmdImportKeys (.absOk "/tmp/keys.txt") (.readOk "DATA") .cancelled (.importOk 1 1) =
      [.reply "Passphrase entry cancelled"] ∧
    exportKeys (.absOk "/tmp/keys.txt") .cancelled (.exportOk "E") .writeOk 3 =
      [.reply "Passphrase entry cancelled"] ∧
    cmdS4Generate "ssss" .cancelled (.newKeyOk "k" "r") .opOk .opOk false = [] ∧
    getSSSS (.found { algorithm := algorithmAESHMACSHA2, passphrase := none })
      .cancelled (.keyOk "KEY") = ([], none) ∧
    crossSigningAuthCallback uiaPasswordFlow .fallbackOk .cancelled "@user:example.com" =
      ([], none) :=
  prompt_cancel_behaviour "/tmp/keys.txt" "DATA" (.importOk 1 1) (.exportOk "E") .writeOk 3
    "ssss" (.newKeyOk "k" "r") .opOk .opOk false
    { algorithm := algorithmAESHMACSHA2, passphrase := none } (.keyOk "KEY")
    uiaPasswordFlow .fallbackOk "@user:example.com" rfl

/-- Claim C9: `cross-signing generate` without `--force`, when the probe
query succeeds and finds published keys, replies with the `--force` hint
and performs neither key generation nor publish. -/
theorem csGenerate_aborts_on_existing_keys (keys : RespQueryKeys) (userID : String)
    (gen : GenResult) (publish : PublishResult)
    (hk : (parseKeyResp keys userID).2.2.2 = true) :
    cmdCrossSigningGenerate false (.success keys) userID gen publish =
      [Effect.queryOwnKeys,
       .reply "Found existing cross-signing keys. Use `--force` if you want to overwrite them."] ∧
    Effect.generateKeys ∉ cmdCrossSigningGenerate false (.success keys) userID gen publish ∧
    Effect.publishKeys ∉ cmdCrossSigningGenerate false (.success keys) userID gen publish := by
  have h : cmdCrossSigningGenerate false (.success keys) userID gen publish =
      [Effect.queryOwnKeys,
       .reply "Found existing cross-signing keys. Use `--force` if you want to overwrite them."] := by
    simp [cmdCrossSigningGenerate, hk]
  rw [h]
  refine ⟨rfl, ?_, ?_⟩ <;> decide

/-- Claim C9 witness: concrete directory answer with published keys. -/
theorem csGenerate_aborts_on_existing_keys_w :
    cmdCrossSigningGenerate false (.success respQKAll) "@user:example.com" .genOk .pubOk =
      [Effect.queryOwnKeys,
       .reply "Found existing cross-signing keys. Use `--force` if you want to overwrite them."] ∧
    Effect.generateKeys ∉
      cmdCrossSigningGenerate false (.success respQKAll) "@user:example.com" .genOk .pubOk ∧
    Effect.publishKeys ∉
      cmdCrossSigningGenerate false (.success respQKAll) "@user:example.com" .genOk .pubOk :=
  csGenerate_aborts_on_existing_keys respQKAll "@user:example.com" .genOk .pubOk rfl

/-- Claim C10: when the probe query fails, `cross-signing generate`
without `--force` emits no reply about the failure and proceeds exactly
as the post-probe workflow (generate then publish), identically to the
`--force` path. -/
theorem csGenerate_probe_failure_silent (e userID : String) (gen : GenResult)
    (publish : PublishResult) :
    cmdCrossSigningGenerate false (.failure e) userID gen publish =
      Effect.queryOwnKeys :: csGenProceed gen publish ∧
    cmdCrossSigningGenerate false (.failure e) userID gen publish =
      Effect.queryOwnKeys :: cmdCrossSigningGenerate true (.failure e) userID gen publish ∧
    Effect.generateKeys ∈ cmdCrossSigningGenerate false (.failure e) userID gen publish ∧
    (∀ s, Effect.reply s ∈ cmdCrossSigningGenerate false (.failure e) userID gen publish →
       Effect.reply s ∈ csGenProceed gen publish) := by
  have h : cmdCrossSigningGenerate false (.failure e) userID gen publish =
      Effect.queryOwnKeys :: csGenProceed gen publish := by
    simp [cmdCrossSigningGenerate]
  refine ⟨h, by simp [cmdCrossSigningGenerate], ?_, ?_⟩
  · rw [h]
    simp [csGenProceed]
  · intro s hs
    rw [h] at hs
    rcases List.mem_cons.mp hs with h1 | h2
    · exact absurd h1 (by simp)
    · exact h2
